import Mathlib

/-!
Shallow embedding of the task-instance execution core found in
`src/airflow/api_fastapi/execution_api/routes/task_instances.py`.

The three route handlers `ti_run`, `ti_update_state` and `ti_heartbeat`
are modelled as pure functions over an explicit store.  Each handler in
the source runs inside one request-scoped database session: on success
the session commits, and every raised exception (HTTPException or the
`ValueError` for a missing DagRun) rolls the whole unit of work back, so
the failing branches of the embedded functions return the store
unchanged.  Timestamps are modelled as integers (`timezone.utcnow()`
becomes an explicit `now` argument).
-/

namespace AirflowExec

/-- Task-instance states used by this core (`airflow.utils.state.State`). -/
inductive TIState where
  | queued
  | running
  | success
  | failed
  | skipped
  | deferred
  | upForReschedule
  deriving DecidableEq

/-- The fixed terminal set (`State.finished`): SUCCESS, FAILED, SKIPPED. -/
def TIState.isTerminal : TIState → Bool
  | .success => true
  | .failed => true
  | .skipped => true
  | _ => false

/-- One row of the `task_instance` table, restricted to the columns this
core reads or writes (the model class itself is not among the sources;
the attribute list follows the handler's queries and the spec's data
model). -/
structure TaskInstance where
  id : String
  state : TIState
  dag_id : String
  run_id : String
  task_id : String
  hostname : String
  unixname : String
  pid : Int
  start_date : Option Int
  end_date : Option Int
  duration : Option Int
  try_number : Nat
  map_index : Int
  next_method : Option String
  next_kwargs : Option String
  trigger_id : Option Nat
  trigger_timeout : Option Int
  last_heartbeat_at : Option Int
  deriving DecidableEq

/-- One row of the `dag_run` table, restricted to the columns selected by
`ti_run` when assembling the run context. -/
structure DagRun where
  run_id : String
  dag_id : String
  data_interval_start : Option Int
  data_interval_end : Option Int
  start_date : Option Int
  end_date : Option Int
  run_type : String
  conf : String
  logical_date : Int
  deriving DecidableEq

/-- A `Trigger` row: created by a deferred transition with the payload's
classpath and kwargs, and assigned a fresh identifier. -/
structure Trigger where
  id : Nat
  classpath : String
  kwargs : String
  deriving DecidableEq

/-- A `TaskReschedule` row, in the positional-argument order of the
constructor call in `ti_update_state`. -/
structure TaskReschedule where
  task_id : String
  dag_id : String
  run_id : String
  try_number : Nat
  actual_start_date : Int
  end_date : Int
  reschedule_date : Int
  map_index : Int
  deriving DecidableEq

/-- The shared database state: the task-instance rows, the (read-only)
dag-run rows, the append-only trigger and reschedule tables, and the
counter handing out fresh trigger identifiers. -/
structure Store where
  tis : List TaskInstance
  dag_runs : List DagRun
  triggers : List Trigger
  reschedules : List TaskReschedule
  next_trigger_id : Nat
  deriving DecidableEq

/-- Point read `select(...).where(TI.id == ti_id_str)` of a task
instance by identifier. -/
def findTI (s : Store) (id : String) : Option TaskInstance :=
  s.tis.find? (fun ti => ti.id == id)

/-- Point read `select(...).filter_by(dag_id=dag_id, run_id=run_id)` of
a dag run. -/
def findDagRun (s : Store) (dag_id run_id : String) : Option DagRun :=
  s.dag_runs.find? (fun dr => dr.dag_id == dag_id && dr.run_id == run_id)

/-- Column update `update(TI).where(TI.id == ti_id_str).values(...)`:
apply an update to every row matching the identifier. -/
def updateTI (s : Store) (id : String) (f : TaskInstance → TaskInstance) : Store :=
  { s with tis := s.tis.map (fun ti => if ti.id == id then f ti else ti) }

/-- Modelled from the spec: the datamodel `TIEnterRunningPayload` is not
among the sources here; per the spec the start-run input is the worker
identity (hostname, unixname, pid), which is exactly what the handler
writes from it. -/
structure TIEnterRunningPayload where
  hostname : String
  unixname : String
  pid : Int
  deriving DecidableEq

/-- Modelled from the spec: the datamodel `TIHeartbeatInfo` is not among
the sources here; per the spec the heartbeat input is the caller's
self-reported (hostname, pid) identity, which is exactly what the
handler reads from it. -/
structure TIHeartbeatInfo where
  hostname : String
  pid : Int
  deriving DecidableEq

/-- Modelled from the spec: terminal variant of `TIStateUpdate` (the
datamodel is not among the sources here) — a final state plus the end
date, the fields the handler reads. -/
structure TITerminalStatePayload where
  state : TIState
  end_date : Int
  deriving DecidableEq

/-- Modelled from the spec: deferred variant of `TIStateUpdate` (the
datamodel is not among the sources here) — trigger classpath and kwargs,
the continuation method, and an optional relative trigger timeout, the
fields the handler reads. -/
structure TIDeferredStatePayload where
  classpath : String
  trigger_kwargs : String
  next_method : String
  trigger_timeout : Option Int
  deriving DecidableEq

/-- Modelled from the spec: reschedule variant of `TIStateUpdate` (the
datamodel is not among the sources here) — the end date of the current
attempt and the requested reschedule date, the fields the handler
reads. -/
structure TIRescheduleStatePayload where
  end_date : Int
  reschedule_date : Int
  deriving DecidableEq

/-- The tagged union `TIStateUpdate` of the three update-state payload
shapes, dispatched by `isinstance` checks in the handler. -/
inductive TIStateUpdate where
  | terminal (p : TITerminalStatePayload)
  | deferred (p : TIDeferredStatePayload)
  | reschedule (p : TIRescheduleStatePayload)
  deriving DecidableEq

/-- Modelled from the spec: `TI.duration_expression_update` lives in
`airflow.models.taskinstance`, which is not among the sources here.  Per
the spec, terminal and reschedule transitions persist the payload's end
date and "recompute duration from start/end date" with
duration = end date minus start date. -/
def duration_expression_update (end_date : Int) (ti : TaskInstance) : TaskInstance :=
  { ti with
    end_date := some end_date
    duration := ti.start_date.map (fun sd => end_date - sd) }

/-- Response `TIRunContext` of a successful start-run, assembling
the owning dag run with (currently empty) variables and connections.
The source field `variables` is spelled `vars` here because `variables`
is reserved in Lean. -/
structure TIRunContext where
  dag_run : DagRun
  vars : List String
  connections : List String
  deriving DecidableEq

/-- Outcome of `ti_run`, mirroring the handler's responses: 404 not
found, 409 conflict carrying the previous state, the `ValueError` for a
task instance whose (dag_id, run_id) resolve to no dag run (surfaced as
an internal server error, not a 404), and the 200 run context. -/
inductive RunResult where
  | notFound
  | conflictInvalidState (previous_state : TIState)
  | internalError (dag_id : String) (run_id : String)
  | ok (ctx : TIRunContext)
  deriving DecidableEq

/-- Handler `ti_run`: locked read of (state, dag_id, run_id); missing row is a
404; any previous state other than QUEUED is a 409 disclosing it;
otherwise set end_date to NULL, store the caller's identity, move the
state to RUNNING, and look up the owning dag run to build the run
context.  A missing dag run raises, rolling the update back. -/
def ti_run (s : Store) (id : String) (p : TIEnterRunningPayload) : RunResult × Store :=
  match findTI s id with
  | none => (.notFound, s)
  | some ti =>
    if ti.state ≠ .queued then
      (.conflictInvalidState ti.state, s)
    else
      match findDagRun s ti.dag_id ti.run_id with
      | none => (.internalError ti.dag_id ti.run_id, s)
      | some dr =>
        (.ok { dag_run := dr, vars := [], connections := [] },
          updateTI s id (fun t =>
            { t with
              end_date := none
              hostname := p.hostname
              unixname := p.unixname
              pid := p.pid
              state := .running }))

/-- Outcome of `ti_update_state`: 404 not found or 204 no content (the
handler validates nothing about the previous state). -/
inductive UpdateResult where
  | notFound
  | ok
  deriving DecidableEq

/-- Handler `ti_update_state`: locked read of the state (404 when missing), then
dispatch on the payload variant.  Terminal: persist end date, recompute
duration, set the final state, and clear next_method/next_kwargs only
when that state is FAILED.  Deferred: compute the absolute timeout from
the relative one when supplied, insert a fresh Trigger row built from
the payload (the pending row receives its identifier when the session
flushes it on execute), and set state DEFERRED with the continuation
fields from the payload; the handler builds the row update with
`trigger_id=trigger_row.id` right after `session.add` with no flush
anywhere, and an unflushed autoincrement key is None, so the bound value
is NULL and the fresh identifier is never linked.  Reschedule: insert a
TaskReschedule row copying (task_id, dag_id, run_id, try_number,
map_index) from the current row, recompute duration from the payload end
date, clear the continuation fields, and set UP_FOR_RESCHEDULE. -/
def ti_update_state (s : Store) (id : String) (p : TIStateUpdate) (now : Int) :
    UpdateResult × Store :=
  match findTI s id with
  | none => (.notFound, s)
  | some ti =>
    match p with
    | .terminal tp =>
      (.ok,
        updateTI s id (fun t =>
          let t := duration_expression_update tp.end_date t
          let t := { t with state := tp.state }
          if tp.state = .failed then
            { t with next_method := none, next_kwargs := none }
          else t))
    | .deferred dp =>
      let timeout := dp.trigger_timeout.map (fun d => now + d)
      let trigger_row : Trigger :=
        { id := s.next_trigger_id
          classpath := dp.classpath
          kwargs := dp.trigger_kwargs }
      let s1 : Store :=
        { s with
          triggers := s.triggers ++ [trigger_row]
          next_trigger_id := s.next_trigger_id + 1 }
      (.ok,
        updateTI s1 id (fun t =>
          { t with
            state := .deferred
            -- trigger_row.id is read before any flush, so the UPDATE
            -- binds NULL, not the trigger's eventual identifier
            trigger_id := none
            next_method := some dp.next_method
            next_kwargs := some dp.trigger_kwargs
            trigger_timeout := timeout }))
    | .reschedule rp =>
      let s1 : Store :=
        { s with
          reschedules := s.reschedules ++
            [{ task_id := ti.task_id
               dag_id := ti.dag_id
               run_id := ti.run_id
               try_number := ti.try_number
               actual_start_date := now
               end_date := rp.end_date
               reschedule_date := rp.reschedule_date
               map_index := ti.map_index }] }
      (.ok,
        updateTI s1 id (fun t =>
          let t := duration_expression_update rp.end_date t
          { t with
            state := .upForReschedule
            next_method := none
            next_kwargs := none }))

/-- Outcome of `ti_heartbeat`: 404 not found, 409 running_elsewhere
disclosing the stored identity, 409 not_running disclosing the current
state, or 204 success. -/
inductive HeartbeatResult where
  | notFound
  | runningElsewhere (current_hostname : String) (current_pid : Int)
  | notRunning (current_state : TIState)
  | ok
  deriving DecidableEq

/-- Handler `ti_heartbeat`: locked read of (state, hostname, pid); missing row
is a 404; an identity mismatch is rejected as running_elsewhere before
the state is examined; a non-RUNNING state is rejected as not_running;
otherwise the single write sets last_heartbeat_at to now. -/
def ti_heartbeat (s : Store) (id : String) (p : TIHeartbeatInfo) (now : Int) :
    HeartbeatResult × Store :=
  match findTI s id with
  | none => (.notFound, s)
  | some ti =>
    if ti.hostname ≠ p.hostname ∨ ti.pid ≠ p.pid then
      (.runningElsewhere ti.hostname ti.pid, s)
    else if ti.state ≠ .running then
      (.notRunning ti.state, s)
    else
      (.ok, updateTI s id (fun t => { t with last_heartbeat_at := some now }))

/-! ### Concrete sample data for witnesses and counterexamples -/

/-- A sample task instance held by worker ("h1", 1000). -/
def sampleTI : TaskInstance :=
  { id := "ti1"
    state := .queued
    dag_id := "dag1"
    run_id := "run1"
    task_id := "task1"
    hostname := "h1"
    unixname := "u1"
    pid := 1000
    start_date := some 10
    end_date := none
    duration := none
    try_number := 1
    map_index := -1
    next_method := none
    next_kwargs := none
    trigger_id := none
    trigger_timeout := none
    last_heartbeat_at := some 20 }

/-- The dag run owning `sampleTI`. -/
def sampleRun : DagRun :=
  { run_id := "run1"
    dag_id := "dag1"
    data_interval_start := some 0
    data_interval_end := some 10
    start_date := some 5
    end_date := none
    run_type := "scheduled"
    conf := "c"
    logical_date := 0 }

/-- Sample store: `sampleTI` placed into a store, with its state
overridden. -/
def sampleStore (st : TIState) : Store :=
  { tis := [{ sampleTI with state := st }]
    dag_runs := [sampleRun]
    triggers := []
    reschedules := []
    next_trigger_id := 0 }

/-- A deferral payload used in concrete scenarios. -/
def sampleDeferPayload : TIDeferredStatePayload :=
  { classpath := "cp", trigger_kwargs := "kw", next_method := "m", trigger_timeout := none }

/-- Store after deferring the running `sampleTI`: the instance is
DEFERRED and carries the continuation data of `sampleDeferPayload`. -/
def deferredStore : Store :=
  (ti_update_state (sampleStore .running) "ti1" (.deferred sampleDeferPayload) 20).2

/-- Store after additionally terminalizing `deferredStore` with
state=SUCCESS. -/
def successAfterDeferStore : Store :=
  (ti_update_state deferredStore "ti1" (.terminal { state := .success, end_date := 30 }) 40).2

/-! ### Helper lemmas -/

/-- Lookup `List.find?` after a keyed in-place map: updating exactly the rows
whose key matches, with a key-preserving update, commutes with the keyed
lookup. -/
theorem find?_map_keyed (l : List TaskInstance) (id : String)
    (f : TaskInstance → TaskInstance) (hf : ∀ t, (f t).id = t.id) :
    (l.map (fun ti => if ti.id == id then f ti else ti)).find? (fun ti => ti.id == id)
      = (l.find? (fun ti => ti.id == id)).map f := by
  induction l with
  | nil => rfl
  | cons t l ih =>
    simp only [List.map_cons]
    by_cases h : (t.id == id) = true
    · rw [if_pos h]
      have e1 : List.find? (fun ti => ti.id == id)
          (f t :: List.map (fun ti => if (ti.id == id) = true then f ti else ti) l)
          = some (f t) :=
        List.find?_cons_of_pos (p := fun ti : TaskInstance => ti.id == id) _
          (by show ((f t).id == id) = true
              rw [hf]; exact h)
      have e2 : List.find? (fun ti => ti.id == id) (t :: l) = some t :=
        List.find?_cons_of_pos (p := fun ti : TaskInstance => ti.id == id) _ h
      rw [e1, e2]
      rfl
    · rw [if_neg h]
      have e1 : List.find? (fun ti => ti.id == id)
          (t :: List.map (fun ti => if (ti.id == id) = true then f ti else ti) l)
          = List.find? (fun ti => ti.id == id)
              (List.map (fun ti => if (ti.id == id) = true then f ti else ti) l) :=
        List.find?_cons_of_neg _ h
      have e2 : List.find? (fun ti => ti.id == id) (t :: l)
          = List.find? (fun ti => ti.id == id) l :=
        List.find?_cons_of_neg _ h
      rw [e1, e2, ih]

/-- Looking up the updated row after `updateTI`. -/
theorem findTI_updateTI (s : Store) (id : String)
    (f : TaskInstance → TaskInstance) (hf : ∀ t, (f t).id = t.id) :
    findTI (updateTI s id f) id = (findTI s id).map f :=
  find?_map_keyed s.tis id f hf

/-- The update `updateTI` only touches the task-instance table. -/
theorem updateTI_triggers (s : Store) (id : String) (f : TaskInstance → TaskInstance) :
    (updateTI s id f).triggers = s.triggers := rfl

/-- The update `updateTI` only touches the task-instance table. -/
theorem updateTI_reschedules (s : Store) (id : String) (f : TaskInstance → TaskInstance) :
    (updateTI s id f).reschedules = s.reschedules := rfl

/-- The update `updateTI` only touches the task-instance table. -/
theorem updateTI_dag_runs (s : Store) (id : String) (f : TaskInstance → TaskInstance) :
    (updateTI s id f).dag_runs = s.dag_runs := rfl

/-- The update `updateTI` only touches the task-instance table. -/
theorem updateTI_next_trigger_id (s : Store) (id : String) (f : TaskInstance → TaskInstance) :
    (updateTI s id f).next_trigger_id = s.next_trigger_id := rfl

/-- Unfolding `ti_run` when the task instance exists. -/
theorem ti_run_eq_of_found (s : Store) (id : String) (p : TIEnterRunningPayload)
    (ti : TaskInstance) (hti : findTI s id = some ti) :
    ti_run s id p =
      if ti.state ≠ TIState.queued then
        (RunResult.conflictInvalidState ti.state, s)
      else
        match findDagRun s ti.dag_id ti.run_id with
        | none => (RunResult.internalError ti.dag_id ti.run_id, s)
        | some dr =>
          (RunResult.ok { dag_run := dr, vars := [], connections := [] },
            updateTI s id (fun t =>
              { t with
                end_date := none
                hostname := p.hostname
                unixname := p.unixname
                pid := p.pid
                state := TIState.running })) := by
  unfold ti_run
  rw [hti]

/-- Unfolding `ti_heartbeat` when the task instance exists. -/
theorem ti_heartbeat_eq_of_found (s : Store) (id : String) (p : TIHeartbeatInfo) (now : Int)
    (ti : TaskInstance) (hti : findTI s id = some ti) :
    ti_heartbeat s id p now =
      if ti.hostname ≠ p.hostname ∨ ti.pid ≠ p.pid then
        (HeartbeatResult.runningElsewhere ti.hostname ti.pid, s)
      else if ti.state ≠ TIState.running then
        (HeartbeatResult.notRunning ti.state, s)
      else
        (HeartbeatResult.ok,
          updateTI s id (fun t => { t with last_heartbeat_at := some now })) := by
  unfold ti_heartbeat
  rw [hti]

/-- Unfolding the terminal branch of `ti_update_state` when the task
instance exists. -/
theorem ti_update_state_terminal_eq (s : Store) (id : String) (tp : TITerminalStatePayload)
    (now : Int) (ti : TaskInstance) (hti : findTI s id = some ti) :
    ti_update_state s id (.terminal tp) now =
      (UpdateResult.ok,
        updateTI s id (fun t =>
          let t := duration_expression_update tp.end_date t
          let t := { t with state := tp.state }
          if tp.state = TIState.failed then
            { t with next_method := none, next_kwargs := none }
          else t)) := by
  unfold ti_update_state
  rw [hti]

/-- Unfolding the deferred branch of `ti_update_state` when the task
instance exists. -/
theorem ti_update_state_deferred_eq (s : Store) (id : String) (dp : TIDeferredStatePayload)
    (now : Int) (ti : TaskInstance) (hti : findTI s id = some ti) :
    ti_update_state s id (.deferred dp) now =
      (UpdateResult.ok,
        updateTI
          { s with
            triggers := s.triggers ++
              [{ id := s.next_trigger_id
                 classpath := dp.classpath
                 kwargs := dp.trigger_kwargs }]
            next_trigger_id := s.next_trigger_id + 1 } id
          (fun t =>
            { t with
              state := TIState.deferred
              trigger_id := none
              next_method := some dp.next_method
              next_kwargs := some dp.trigger_kwargs
              trigger_timeout := dp.trigger_timeout.map (fun d => now + d) })) := by
  unfold ti_update_state
  rw [hti]

/-- Unfolding the reschedule branch of `ti_update_state` when the task
instance exists. -/
theorem ti_update_state_reschedule_eq (s : Store) (id : String) (rp : TIRescheduleStatePayload)
    (now : Int) (ti : TaskInstance) (hti : findTI s id = some ti) :
    ti_update_state s id (.reschedule rp) now =
      (UpdateResult.ok,
        updateTI
          { s with
            reschedules := s.reschedules ++
              [{ task_id := ti.task_id
                 dag_id := ti.dag_id
                 run_id := ti.run_id
                 try_number := ti.try_number
                 actual_start_date := now
                 end_date := rp.end_date
                 reschedule_date := rp.reschedule_date
                 map_index := ti.map_index }] } id
          (fun t =>
            let t := duration_expression_update rp.end_date t
            { t with
              state := TIState.upForReschedule
              next_method := none
              next_kwargs := none })) := by
  unfold ti_update_state
  rw [hti]

/-! ### Claims -/

/-- C3: for every existing task instance, start-run succeeds only when
the current state is QUEUED; from any other current state it fails with
a conflict disclosing the offending previous state, and nothing is
mutated.  (The conflict result is distinct from every `ok` result, so
success from a non-QUEUED state is impossible.) -/
theorem c3_start_run_conflict_unless_queued (s : Store) (id : String)
    (p : TIEnterRunningPayload) (ti : TaskInstance) (hti : findTI s id = some ti)
    (hq : ti.state ≠ TIState.queued) :
    ti_run s id p = (RunResult.conflictInvalidState ti.state, s) := by
  rw [ti_run_eq_of_found s id p ti hti, if_pos hq]

/-- Witness for C3: starting the running `sampleTI` is a conflict
disclosing RUNNING, with the store unchanged. -/
theorem c3_witness :
    ti_run (sampleStore TIState.running) "ti1"
        { hostname := "h2", unixname := "u2", pid := 2000 }
      = (RunResult.conflictInvalidState
           ({ sampleTI with state := TIState.running } : TaskInstance).state,
         sampleStore TIState.running) :=
  c3_start_run_conflict_unless_queued (sampleStore TIState.running) "ti1"
    { hostname := "h2", unixname := "u2", pid := 2000 }
    { sampleTI with state := TIState.running } (by decide) (by decide)

/-- C6: for every existing task instance, a heartbeat whose declared
(hostname, pid) differs from the stored holder identity fails with
running_elsewhere, disclosing the stored hostname and pid, and mutates
nothing. -/
theorem c6_heartbeat_identity_mismatch_rejected (s : Store) (id : String)
    (p : TIHeartbeatInfo) (now : Int) (ti : TaskInstance) (hti : findTI s id = some ti)
    (hmm : ti.hostname ≠ p.hostname ∨ ti.pid ≠ p.pid) :
    ti_heartbeat s id p now = (HeartbeatResult.runningElsewhere ti.hostname ti.pid, s) := by
  rw [ti_heartbeat_eq_of_found s id p now ti hti, if_pos hmm]

/-- Witness for C6: a heartbeat for the running `sampleTI` held by
("h1", 1000) from ("h1", 2000) is rejected as running_elsewhere and the
store is unchanged. -/
theorem c6_witness :
    ti_heartbeat (sampleStore TIState.running) "ti1" { hostname := "h1", pid := 2000 } 50
      = (HeartbeatResult.runningElsewhere
           ({ sampleTI with state := TIState.running } : TaskInstance).hostname
           ({ sampleTI with state := TIState.running } : TaskInstance).pid,
         sampleStore TIState.running) :=
  c6_heartbeat_identity_mismatch_rejected (sampleStore TIState.running) "ti1"
    { hostname := "h1", pid := 2000 } 50
    { sampleTI with state := TIState.running } (by decide) (Or.inr (by decide))

/-- C2 counterexample: the handler checks identity before state, so a
heartbeat on a QUEUED (hence not RUNNING) instance from a mismatched
identity is rejected as running_elsewhere, not as not_running — refuting
"always fails with not-running, regardless of identity match". -/
theorem c2_counterexample :
    (findTI (sampleStore TIState.queued) "ti1").map TaskInstance.state
      = some TIState.queued ∧
    (ti_heartbeat (sampleStore TIState.queued) "ti1" { hostname := "h2", pid := 2000 } 50).1
      = HeartbeatResult.runningElsewhere "h1" 1000 := by
  constructor
  · rfl
  · rfl

/-- C2 as amended: a heartbeat on an existing instance whose state is
not RUNNING fails with not_running (carrying the current state) when the
caller's (hostname, pid) matches the stored identity; with a mismatched
identity the identity check fires first and the failure is
running_elsewhere instead. -/
theorem c2_not_running_conflict_when_identity_matches (s : Store) (id : String)
    (p : TIHeartbeatInfo) (now : Int) (ti : TaskInstance) (hti : findTI s id = some ti)
    (hh : ti.hostname = p.hostname) (hp : ti.pid = p.pid)
    (hs : ti.state ≠ TIState.running) :
    ti_heartbeat s id p now = (HeartbeatResult.notRunning ti.state, s) := by
  rw [ti_heartbeat_eq_of_found s id p now ti hti,
    if_neg (fun hc => hc.elim (fun h1 => h1 hh) (fun h2 => h2 hp)), if_pos hs]

/-- Witness for amended C2: the holder identity heartbeating the QUEUED
`sampleTI` gets not_running carrying QUEUED, with the store unchanged. -/
theorem c2_amended_witness :
    ti_heartbeat (sampleStore TIState.queued) "ti1" { hostname := "h1", pid := 1000 } 50
      = (HeartbeatResult.notRunning
           ({ sampleTI with state := TIState.queued } : TaskInstance).state,
         sampleStore TIState.queued) :=
  c2_not_running_conflict_when_identity_matches (sampleStore TIState.queued) "ti1"
    { hostname := "h1", pid := 1000 } 50
    { sampleTI with state := TIState.queued } (by decide) (by decide) (by decide) (by decide)

/-- C5: a heartbeat from the recorded holder identity while RUNNING
succeeds, writes last_heartbeat_at := now as its single mutation of the
instance (every other field of the row, and every other table, is
unchanged), and — the clock having moved past the stored value — the
written value strictly exceeds the previous one. -/
theorem c5_heartbeat_holder_running_advances (s : Store) (id : String)
    (p : TIHeartbeatInfo) (now t0 : Int) (ti : TaskInstance) (hti : findTI s id = some ti)
    (hh : ti.hostname = p.hostname) (hp : ti.pid = p.pid)
    (hs : ti.state = TIState.running)
    (hprev : ti.last_heartbeat_at = some t0) (hlt : t0 < now) :
    (ti_heartbeat s id p now).1 = HeartbeatResult.ok ∧
    findTI (ti_heartbeat s id p now).2 id = some { ti with last_heartbeat_at := some now } ∧
    (ti_heartbeat s id p now).2.triggers = s.triggers ∧
    (ti_heartbeat s id p now).2.reschedules = s.reschedules ∧
    (ti_heartbeat s id p now).2.dag_runs = s.dag_runs ∧
    t0 < now := by
  have he := ti_heartbeat_eq_of_found s id p now ti hti
  rw [if_neg (fun hc => hc.elim (fun h1 => h1 hh) (fun h2 => h2 hp)),
    if_neg (fun hc => hc hs)] at he
  refine ⟨by rw [he], ?_, by rw [he]; rfl, by rw [he]; rfl, by rw [he]; rfl, hlt⟩
  rw [he]
  show findTI (updateTI s id _) id = _
  rw [findTI_updateTI s id]
  · rw [hti]
    rfl
  · intro u
    rfl

/-- Witness for C5: the holder ("h1", 1000) heartbeats the running
`sampleTI` (previous heartbeat 20) at time 100: success, the row's only
change is last_heartbeat_at := 100, and 20 < 100. -/
theorem c5_witness :
    (ti_heartbeat (sampleStore TIState.running) "ti1"
        { hostname := "h1", pid := 1000 } 100).1 = HeartbeatResult.ok ∧
    findTI (ti_heartbeat (sampleStore TIState.running) "ti1"
        { hostname := "h1", pid := 1000 } 100).2 "ti1"
      = some { sampleTI with state := TIState.running, last_heartbeat_at := some 100 } ∧
    (ti_heartbeat (sampleStore TIState.running) "ti1"
        { hostname := "h1", pid := 1000 } 100).2.triggers
      = (sampleStore TIState.running).triggers ∧
    (ti_heartbeat (sampleStore TIState.running) "ti1"
        { hostname := "h1", pid := 1000 } 100).2.reschedules
      = (sampleStore TIState.running).reschedules ∧
    (ti_heartbeat (sampleStore TIState.running) "ti1"
        { hostname := "h1", pid := 1000 } 100).2.dag_runs
      = (sampleStore TIState.running).dag_runs ∧
    (20 : Int) < 100 :=
  c5_heartbeat_holder_running_advances (sampleStore TIState.running) "ti1"
    { hostname := "h1", pid := 1000 } 100 20
    { sampleTI with state := TIState.running } (by decide) (by decide) (by decide)
    (by decide) (by decide) (by decide)

/-- C1 counterexample: `sampleTI` in the terminal state SUCCESS; a
terminal update-state attempt with FAILED is accepted (no conflict) and
changes the instance's state — refuting "any subsequent transition
attempt through this core is rejected as a conflict and does not change
the instance". -/
theorem c1_counterexample :
    TIState.isTerminal TIState.success = true ∧
    (findTI (sampleStore TIState.success) "ti1").map TaskInstance.state
      = some TIState.success ∧
    (ti_update_state (sampleStore TIState.success) "ti1"
        (.terminal { state := TIState.failed, end_date := 42 }) 50).1 = UpdateResult.ok ∧
    (findTI (ti_update_state (sampleStore TIState.success) "ti1"
        (.terminal { state := TIState.failed, end_date := 42 }) 50).2 "ti1").map
        TaskInstance.state
      = some TIState.failed := by
  refine ⟨rfl, rfl, rfl, rfl⟩

/-- C1 as amended: from a terminal current state, start-run is rejected
as a conflict and mutates nothing; but the update-state variants do not
re-validate the previous state, so any update-state attempt on an
existing instance — terminal state or not — is accepted. -/
theorem c1_terminal_rejects_start_run_but_not_update_state (s : Store) (id : String)
    (p : TIEnterRunningPayload) (up : TIStateUpdate) (now : Int)
    (ti : TaskInstance) (hti : findTI s id = some ti)
    (hterm : ti.state.isTerminal = true) :
    ti_run s id p = (RunResult.conflictInvalidState ti.state, s) ∧
    (ti_update_state s id up now).1 = UpdateResult.ok := by
  have hq : ti.state ≠ TIState.queued := by
    intro h
    rw [h] at hterm
    exact Bool.noConfusion hterm
  constructor
  · rw [ti_run_eq_of_found s id p ti hti, if_pos hq]
  · cases up with
    | terminal tp => rw [ti_update_state_terminal_eq s id tp now ti hti]
    | deferred dp => rw [ti_update_state_deferred_eq s id dp now ti hti]
    | reschedule rp => rw [ti_update_state_reschedule_eq s id rp now ti hti]

/-- Witness for amended C1: on `sampleTI` in SUCCESS, start-run is a
conflict disclosing SUCCESS with nothing mutated, while a terminal
update-state attempt is accepted. -/
theorem c1_amended_witness :
    ti_run (sampleStore TIState.success) "ti1"
        { hostname := "h2", unixname := "u2", pid := 2000 }
      = (RunResult.conflictInvalidState
           ({ sampleTI with state := TIState.success } : TaskInstance).state,
         sampleStore TIState.success) ∧
    (ti_update_state (sampleStore TIState.success) "ti1"
        (.terminal { state := TIState.skipped, end_date := 42 }) 50).1 = UpdateResult.ok :=
  c1_terminal_rejects_start_run_but_not_update_state (sampleStore TIState.success) "ti1"
    { hostname := "h2", unixname := "u2", pid := 2000 }
    (.terminal { state := TIState.skipped, end_date := 42 }) 50
    { sampleTI with state := TIState.success } (by decide) (by decide)

/-- C4: starting a QUEUED instance stores the caller's hostname,
unixname and pid, clears the end date, moves the state to RUNNING, and
answers with the run context of the owning dag run looked up by
(dag_id, run_id); when that lookup finds no dag run the call surfaces
the internal data-integrity error (carrying the dangling identifiers,
distinct from the not-found result) and rolls everything back. -/
theorem c4_start_run_success_and_run_context (s : Store) (id : String)
    (p : TIEnterRunningPayload) (ti : TaskInstance) (hti : findTI s id = some ti)
    (hq : ti.state = TIState.queued) :
    (match findDagRun s ti.dag_id ti.run_id with
     | some dr =>
        (ti_run s id p).1 = RunResult.ok { dag_run := dr, vars := [], connections := [] } ∧
        findTI (ti_run s id p).2 id
          = some { ti with
                   end_date := none
                   hostname := p.hostname
                   unixname := p.unixname
                   pid := p.pid
                   state := TIState.running } ∧
        (ti_run s id p).2.triggers = s.triggers ∧
        (ti_run s id p).2.reschedules = s.reschedules
     | none => ti_run s id p = (RunResult.internalError ti.dag_id ti.run_id, s) : Prop) := by
  have he := ti_run_eq_of_found s id p ti hti
  rw [if_neg (fun hne => hne hq)] at he
  cases hdr : findDagRun s ti.dag_id ti.run_id with
  | none =>
    rw [hdr] at he
    exact he
  | some dr =>
    rw [hdr] at he
    refine ⟨by rw [he], ?_, by rw [he]; rfl, by rw [he]; rfl⟩
    rw [he]
    show findTI (updateTI s id _) id = _
    rw [findTI_updateTI s id]
    · rw [hti]
      rfl
    · intro u
      rfl

/-- Witness for C4: starting the QUEUED `sampleTI` as ("h2", "u2", 2000)
returns the context of `sampleRun`, stores the identity, clears the end
date and sets RUNNING. -/
theorem c4_witness :
    (ti_run (sampleStore TIState.queued) "ti1"
        { hostname := "h2", unixname := "u2", pid := 2000 }).1
      = RunResult.ok { dag_run := sampleRun, vars := [], connections := [] } ∧
    findTI (ti_run (sampleStore TIState.queued) "ti1"
        { hostname := "h2", unixname := "u2", pid := 2000 }).2 "ti1"
      = some { sampleTI with
               state := TIState.running
               end_date := none
               hostname := "h2"
               unixname := "u2"
               pid := 2000 } ∧
    (ti_run (sampleStore TIState.queued) "ti1"
        { hostname := "h2", unixname := "u2", pid := 2000 }).2.triggers
      = (sampleStore TIState.queued).triggers ∧
    (ti_run (sampleStore TIState.queued) "ti1"
        { hostname := "h2", unixname := "u2", pid := 2000 }).2.reschedules
      = (sampleStore TIState.queued).reschedules :=
  c4_start_run_success_and_run_context (sampleStore TIState.queued) "ti1"
    { hostname := "h2", unixname := "u2", pid := 2000 }
    { sampleTI with state := TIState.queued } (by decide) (by decide)

/-- C7: a terminal update with final state FAILED and end date t leaves
the instance FAILED with next_method and next_kwargs null (whatever they
were before) and duration = t minus the stored start date. -/
theorem c7_terminal_failed_clears_and_sets_duration (s : Store) (id : String)
    (t now sd : Int) (ti : TaskInstance) (hti : findTI s id = some ti)
    (hsd : ti.start_date = some sd) :
    (ti_update_state s id (.terminal { state := TIState.failed, end_date := t }) now).1
      = UpdateResult.ok ∧
    findTI (ti_update_state s id
        (.terminal { state := TIState.failed, end_date := t }) now).2 id
      = some { ti with
               state := TIState.failed
               end_date := some t
               duration := some (t - sd)
               next_method := none
               next_kwargs := none } := by
  have he := ti_update_state_terminal_eq s id { state := TIState.failed, end_date := t }
    now ti hti
  refine ⟨by rw [he], ?_⟩
  rw [he]
  show findTI (updateTI s id _) id = _
  rw [findTI_updateTI]
  · rw [hti]
    show some _ = some _
    simp only [duration_expression_update, hsd]
    rfl
  · intro u
    rfl

/-- Witness for C7: failing the running `sampleTI` (started at 10) with
end date 42 gives FAILED, cleared continuation fields, and duration
42 − 10. -/
theorem c7_witness :
    (ti_update_state (sampleStore TIState.running) "ti1"
        (.terminal { state := TIState.failed, end_date := 42 }) 50).1 = UpdateResult.ok ∧
    findTI (ti_update_state (sampleStore TIState.running) "ti1"
        (.terminal { state := TIState.failed, end_date := 42 }) 50).2 "ti1"
      = some { sampleTI with
               state := TIState.failed
               end_date := some 42
               duration := some (42 - 10)
               next_method := none
               next_kwargs := none } :=
  c7_terminal_failed_clears_and_sets_duration (sampleStore TIState.running) "ti1"
    42 50 10 { sampleTI with state := TIState.running } (by decide) (by decide)

/-- C8 counterexample: deferring the running `sampleTI` stores
continuation data with state DEFERRED; a subsequent terminal update
with state=SUCCESS (which only FAILED would clear) leaves the instance
in the non-DEFERRED state SUCCESS while still carrying the non-null
next_method and next_kwargs — refuting the claimed invariant. -/
theorem c8_counterexample :
    (findTI deferredStore "ti1").map (fun u => (u.state, u.next_method, u.next_kwargs))
      = some (TIState.deferred, some "m", some "kw") ∧
    (findTI successAfterDeferStore "ti1").map
        (fun u => (u.state, u.next_method, u.next_kwargs))
      = some (TIState.success, some "m", some "kw") := by
  refine ⟨rfl, rfl⟩

/-- C8 as amended: terminal-FAILED and reschedule transitions do clear
next_method and next_kwargs (a reschedule also sets UP_FOR_RESCHEDULE);
but terminal transitions to final states other than FAILED leave the
fields untouched, so the invariant "non-null continuation data only in
DEFERRED" is not preserved by every operation of this core. -/
theorem c8_failed_and_reschedule_clear_continuation (s : Store) (id : String)
    (t_end now : Int) (rp : TIRescheduleStatePayload) (ti : TaskInstance)
    (hti : findTI s id = some ti) :
    (findTI (ti_update_state s id
        (.terminal { state := TIState.failed, end_date := t_end }) now).2 id).map
        (fun u => (u.next_method, u.next_kwargs))
      = some (none, none) ∧
    (findTI (ti_update_state s id (.reschedule rp) now).2 id).map
        (fun u => (u.next_method, u.next_kwargs))
      = some (none, none) ∧
    (findTI (ti_update_state s id (.reschedule rp) now).2 id).map TaskInstance.state
      = some TIState.upForReschedule := by
  have he := ti_update_state_terminal_eq s id { state := TIState.failed, end_date := t_end }
    now ti hti
  have hr := ti_update_state_reschedule_eq s id rp now ti hti
  refine ⟨?_, ?_, ?_⟩
  · rw [he]
    show (findTI (updateTI s id _) id).map _ = _
    rw [findTI_updateTI]
    · rw [hti]
      rfl
    · intro u
      rfl
  · rw [hr]
    show (findTI (updateTI _ id _) id).map _ = _
    rw [findTI_updateTI]
    · show ((findTI s id).map _).map _ = _
      rw [hti]
      rfl
    · intro u
      rfl
  · rw [hr]
    show (findTI (updateTI _ id _) id).map _ = _
    rw [findTI_updateTI]
    · show ((findTI s id).map _).map _ = _
      rw [hti]
      rfl
    · intro u
      rfl

/-- Witness for amended C8: on the DEFERRED instance of `deferredStore`
(carrying next_method "m"), a terminal-FAILED update and a reschedule
update both leave the fields null, and the reschedule sets
UP_FOR_RESCHEDULE. -/
theorem c8_amended_witness :
    (findTI (ti_update_state deferredStore "ti1"
        (.terminal { state := TIState.failed, end_date := 90 }) 95).2 "ti1").map
        (fun u => (u.next_method, u.next_kwargs))
      = some (none, none) ∧
    (findTI (ti_update_state deferredStore "ti1"
        (.reschedule { end_date := 100, reschedule_date := 200 }) 95).2 "ti1").map
        (fun u => (u.next_method, u.next_kwargs))
      = some (none, none) ∧
    (findTI (ti_update_state deferredStore "ti1"
        (.reschedule { end_date := 100, reschedule_date := 200 }) 95).2 "ti1").map
        TaskInstance.state
      = some TIState.upForReschedule :=
  c8_failed_and_reschedule_clear_continuation deferredStore "ti1" 90 95
    { end_date := 100, reschedule_date := 200 }
    { sampleTI with
      state := TIState.deferred
      trigger_id := none
      next_method := some "m"
      next_kwargs := some "kw"
      trigger_timeout := none } (by decide)

/-- C9: evaluating the code at the failing input.  Deferring the
running `sampleTI` does create exactly one Trigger row carrying the
payload's classpath and kwargs (the pending insert is flushed with its
real identifier 0), and does set state DEFERRED with the continuation
fields copied from the payload and a null absolute timeout (none was
supplied); but the handler reads `trigger_row.id` right after
`session.add` with no flush, so the row update binds trigger_id = NULL
and the instance's trigger_id stays null — the fresh identifier is
never linked, contradicting the claimed (and spec-intended) linking. -/
theorem c9_trigger_created_but_never_linked :
    (ti_update_state (sampleStore TIState.running) "ti1"
        (.deferred sampleDeferPayload) 20).1 = UpdateResult.ok ∧
    (ti_update_state (sampleStore TIState.running) "ti1"
        (.deferred sampleDeferPayload) 20).2.triggers
      = [{ id := 0, classpath := "cp", kwargs := "kw" }] ∧
    (findTI (ti_update_state (sampleStore TIState.running) "ti1"
        (.deferred sampleDeferPayload) 20).2 "ti1").map
        (fun u => (u.state, u.trigger_id, u.next_method, u.next_kwargs, u.trigger_timeout))
      = some (TIState.deferred, none, some "m", some "kw", none) := by
  refine ⟨rfl, rfl, rfl⟩

/-- C10: a reschedule update appends exactly one reschedule record whose
(task_id, dag_id, run_id, try_number, map_index) are copied from the
instance at call time, recomputes the duration from the payload end
date, clears next_method and next_kwargs, and sets UP_FOR_RESCHEDULE. -/
theorem c10_reschedule_record_and_state (s : Store) (id : String)
    (rp : TIRescheduleStatePayload) (now : Int) (ti : TaskInstance)
    (hti : findTI s id = some ti) :
    (ti_update_state s id (.reschedule rp) now).1 = UpdateResult.ok ∧
    (ti_update_state s id (.reschedule rp) now).2.reschedules
      = s.reschedules ++
          [{ task_id := ti.task_id
             dag_id := ti.dag_id
             run_id := ti.run_id
             try_number := ti.try_number
             actual_start_date := now
             end_date := rp.end_date
             reschedule_date := rp.reschedule_date
             map_index := ti.map_index }] ∧
    findTI (ti_update_state s id (.reschedule rp) now).2 id
      = some { ti with
               state := TIState.upForReschedule
               end_date := some rp.end_date
               duration := ti.start_date.map (fun sd => rp.end_date - sd)
               next_method := none
               next_kwargs := none } := by
  have he := ti_update_state_reschedule_eq s id rp now ti hti
  refine ⟨by rw [he], by rw [he]; rfl, ?_⟩
  rw [he]
  show findTI (updateTI _ id _) id = _
  rw [findTI_updateTI]
  · show (findTI s id).map _ = _
    rw [hti]
    rfl
  · intro u
    rfl

/-- Witness for C10: rescheduling the running `sampleTI` (task "task1",
dag "dag1", run "run1", try 1, map −1, started at 10) with end date 100
and reschedule date 200 at time 95. -/
theorem c10_witness :
    (ti_update_state (sampleStore TIState.running) "ti1"
        (.reschedule { end_date := 100, reschedule_date := 200 }) 95).1 = UpdateResult.ok ∧
    (ti_update_state (sampleStore TIState.running) "ti1"
        (.reschedule { end_date := 100, reschedule_date := 200 }) 95).2.reschedules
      = [{ task_id := "task1"
           dag_id := "dag1"
           run_id := "run1"
           try_number := 1
           actual_start_date := 95
           end_date := 100
           reschedule_date := 200
           map_index := -1 }] ∧
    findTI (ti_update_state (sampleStore TIState.running) "ti1"
        (.reschedule { end_date := 100, reschedule_date := 200 }) 95).2 "ti1"
      = some { sampleTI with
               state := TIState.upForReschedule
               end_date := some 100
               duration := some 90
               next_method := none
               next_kwargs := none } :=
  c10_reschedule_record_and_state (sampleStore TIState.running) "ti1"
    { end_date := 100, reschedule_date := 200 } 95
    { sampleTI with state := TIState.running } (by decide)

end AirflowExec
